import Mathlib

set_option maxRecDepth 200000

/-!
Verification development for the biomarker-report extractor (`app.py`).

The single routine with logic is `parse_result_to_json`, which converts the
remote model's markdown answer into a fixed-shape record using sequential
`re` scans.  This file shallowly embeds that routine: Python strings become
`List Char`, each regular expression becomes an explicit pattern value
(`List RItem`) interpreted by a backtracking matcher with Python `re`
semantics (leftmost match, alternation priority, greedy/lazy repetition),
and the surrounding dict/list manipulations become structural functions on
association lists.  The matcher takes a fuel argument as a termination
device; the fuel supplied is far above the number of backtracking steps any
input considered here can use, and every universal theorem below is stated
so that it holds for every fuel value.
-/

/-! ## Python string primitives -/

/-- Characters treated as whitespace by Python's `str.strip()` (ASCII part). -/
def pyWhitespace (c : Char) : Bool :=
  c == ' ' || c == '\t' || c == '\n' || c == '\r' || c == '\x0b' || c == '\x0c'

/-- Drop the longest run of characters satisfying `p` from the front. -/
def dropLeading (p : Char → Bool) : List Char → List Char
  | [] => []
  | c :: t => if p c then dropLeading p t else c :: t

/-- Python `s.strip(chars)` for a predicate: trim both ends. -/
def pyStripP (p : Char → Bool) (cs : List Char) : List Char :=
  (dropLeading p (dropLeading p cs.reverse).reverse)

/-- Python `s.strip()` (whitespace on both ends). -/
def pyStrip (cs : List Char) : List Char := pyStripP pyWhitespace cs

/-- Python `s.strip(set)`: trim any of the given characters from both ends. -/
def pyStripSet (set : List Char) (cs : List Char) : List Char :=
  pyStripP (fun c => set.contains c) cs

/-- Python `s.split(sep)` for a single-character separator (keeps empties). -/
def splitOnChar (sep : Char) : List Char → List (List Char)
  | [] => [[]]
  | c :: t =>
    let r := splitOnChar sep t
    if c == sep then [] :: r
    else
      match r with
      | h :: rest => (c :: h) :: rest
      | [] => [[c]]

/-- Python `str.lower()` restricted to ASCII letters (the only characters
`\w+` categories in this program produce). -/
def asciiLower (cs : List Char) : List Char := cs.map Char.toLower

/-- Does `w` occur as a contiguous substring of the second list? -/
def containsSub (w : List Char) : List Char → Bool
  | [] => w.isPrefixOf []
  | c :: t => w.isPrefixOf (c :: t) || containsSub w t

/-! ## Regular-expression engine

Pattern items mirror the constructs used by the regexes in `app.py`:
literals, single-character classes (`.` is the class that accepts
everything under `re.S` and everything but newline otherwise), greedy and
lazy repetition of a class, `?`, two-way alternation, capturing groups,
`(?:...)+` over a sequence, and the `$` anchor (Python non-MULTILINE `$`:
end of input or just before a final newline). -/

inductive RItem where
  | lit : List Char → RItem
  | cls : (Char → Bool) → RItem
  | star : Bool → (Char → Bool) → RItem
  | plus : Bool → (Char → Bool) → RItem
  | opt : (Char → Bool) → RItem
  | alt2 : List RItem → List RItem → RItem
  | grp : Nat → List RItem → RItem
  | rep1 : List RItem → RItem
  | rep0 : List RItem → RItem
  | dollar : RItem

/-- Captured groups: group index paired with the captured characters. -/
abbrev Caps := List (Nat × List Char)

/-- First-success choice used to order backtracking alternatives. -/
def orElseU (a : Option α) (b : Unit → Option α) : Option α :=
  match a with
  | some x => some x
  | none => b ()

/-- Backtracking matcher in continuation-passing style.  `matchSeq fuel
items cs caps k` tries to match the item sequence against a prefix of `cs`;
on each way of matching it calls `k` with the remaining input and captures,
and the first success (in Python priority order: alternation left-first,
greedy repetitions longest-first, lazy ones shortest-first) is returned.
`fuel` only forces termination; it bounds the number of engine steps. -/
def matchSeq : Nat → List RItem → List Char → Caps →
    (List Char → Caps → Option α) → Option α
  | 0, _, _, _, _ => none
  | _ + 1, [], cs, caps, k => k cs caps
  | f + 1, .lit w :: items, cs, caps, k =>
    if w.isPrefixOf cs then matchSeq f items (cs.drop w.length) caps k else none
  | f + 1, .cls p :: items, cs, caps, k =>
    match cs with
    | [] => none
    | c :: rest => if p c then matchSeq f items rest caps k else none
  | f + 1, .star g p :: items, cs, caps, k =>
    if g then
      orElseU (matchSeq f (.cls p :: .star g p :: items) cs caps k)
        (fun _ => matchSeq f items cs caps k)
    else
      orElseU (matchSeq f items cs caps k)
        (fun _ => matchSeq f (.cls p :: .star g p :: items) cs caps k)
  | f + 1, .plus g p :: items, cs, caps, k =>
    matchSeq f (.cls p :: .star g p :: items) cs caps k
  | f + 1, .opt p :: items, cs, caps, k =>
    orElseU (matchSeq f (.cls p :: items) cs caps k)
      (fun _ => matchSeq f items cs caps k)
  | f + 1, .alt2 x y :: items, cs, caps, k =>
    orElseU (matchSeq f (x ++ items) cs caps k)
      (fun _ => matchSeq f (y ++ items) cs caps k)
  | f + 1, .grp n inner :: items, cs, caps, k =>
    matchSeq f inner cs caps (fun rest caps2 =>
      matchSeq f items rest ((n, cs.take (cs.length - rest.length)) :: caps2) k)
  | f + 1, .rep1 body :: items, cs, caps, k =>
    matchSeq f (body ++ .rep0 body :: items) cs caps k
  | f + 1, .rep0 body :: items, cs, caps, k =>
    orElseU (matchSeq f (body ++ .rep0 body :: items) cs caps k)
      (fun _ => matchSeq f items cs caps k)
  | f + 1, .dollar :: items, cs, caps, k =>
    if cs.isEmpty || cs == ['\n'] then matchSeq f items cs caps k else none

/-- Fuel supplied to one match attempt: a generous cubic bound on the
backtracking steps needed for the inputs this development evaluates. -/
def mFuel (cs : List Char) : Nat :=
  (cs.length + 50) * (cs.length + 50) * (cs.length + 50)

/-- Try to match `pat` at the start of `cs`; on success return the captures
and the input remaining after the match. -/
def matchAt (pat : List RItem) (cs : List Char) : Option (Caps × List Char) :=
  matchSeq (mFuel cs) pat cs [] (fun rest caps => some (caps, rest))

/-- Python `re.search`: try each start position left to right, return the
captures of the first position at which the pattern matches. -/
def searchCaps : Nat → List RItem → List Char → Option Caps
  | 0, _, _ => none
  | f + 1, pat, cs =>
    match matchAt pat cs with
    | some pr => some pr.1
    | none =>
      match cs with
      | [] => none
      | _ :: t => searchCaps f pat t

/-- Python `re.findall`: scan left to right collecting non-overlapping
matches, resuming after each match (advancing one character on an empty
match, which the patterns of this program never produce). -/
def findall : Nat → List RItem → List Char → List Caps
  | 0, _, _ => []
  | f + 1, pat, cs =>
    match matchAt pat cs with
    | some pr =>
      if pr.2.length < cs.length then pr.1 :: findall f pat pr.2
      else
        pr.1 :: (match cs with
          | [] => []
          | _ :: t => findall f pat t)
    | none =>
      match cs with
      | [] => []
      | _ :: t => findall f pat t

/-- Python `re.sub(pat, "", text)`: delete every non-overlapping match,
scanning left to right. -/
def subAll : Nat → List RItem → List Char → List Char
  | 0, _, cs => cs
  | f + 1, pat, cs =>
    match matchAt pat cs with
    | some pr =>
      if pr.2.length < cs.length then subAll f pat pr.2
      else
        match cs with
        | [] => []
        | c :: t => c :: subAll f pat t
    | none =>
      match cs with
      | [] => []
      | c :: t => c :: subAll f pat t

/-- Search with the standard scan fuel (one attempt per start position). -/
def searchCapsR (cs : List Char) (pat : List RItem) : Option Caps :=
  searchCaps (cs.length + 1) pat cs

/-- Findall with the standard scan fuel. -/
def findallR (cs : List Char) (pat : List RItem) : List Caps :=
  findall (cs.length + 1) pat cs

/-- Value of capture group `i` (empty when the group is absent). -/
def getCap : Caps → Nat → List Char
  | [], _ => []
  | (j, v) :: rest, i => if j = i then v else getCap rest i

/-! ## Character classes used by the patterns of `app.py` -/

/-- `.` under `re.S`. -/
def dotAll (_ : Char) : Bool := true

/-- `.` without `re.S`: anything but a newline. -/
def dotNoNL (c : Char) : Bool := c != '\n'

/-- `[A-Za-z ]`. -/
def alphaSpace (c : Char) : Bool :=
  (decide ('A' ≤ c) && decide (c ≤ 'Z')) || (decide ('a' ≤ c) && decide (c ≤ 'z')) || c == ' '

/-- `[0-9.\-–]` (digits, dot, hyphen, en dash). -/
def rangeStart (c : Char) : Bool :=
  (decide ('0' ≤ c) && decide (c ≤ '9')) || c == '.' || c == '-' || c == '–'

/-- `\d` (ASCII digits, the only digits the model output uses). -/
def digitC (c : Char) : Bool := decide ('0' ≤ c) && decide (c ≤ '9')

/-- `\s` (ASCII whitespace). -/
def spaceC (c : Char) : Bool := pyWhitespace c

/-- `\w` (ASCII word characters). -/
def wordC (c : Char) : Bool :=
  (decide ('A' ≤ c) && decide (c ≤ 'Z')) || (decide ('a' ≤ c) && decide (c ≤ 'z'))
    || digitC c || c == '_'

/-- `\n` as a class (for the `\n?` inside the table pattern). -/
def nlC (c : Char) : Bool := c == '\n'

/-! ## The patterns of `parse_result_to_json`, one per `re` call -/

/-- Pattern of `re.sub(r"```.*?```", "", result_text, flags=re.S)`. -/
def fencePat : List RItem :=
  [.lit "```".data, .star false dotAll, .lit "```".data]

/-- Pattern of `re.findall(r"- ([A-Za-z ]+): ([0-9.\-–]+.*)", result_text)`. -/
def normalRangePat : List RItem :=
  [.lit "- ".data, .grp 1 [.plus true alphaSpace], .lit ": ".data,
   .grp 2 [.plus true rangeStart, .star true dotNoNL]]

/-- Pattern of
`re.search(r"\| Biomarker \| Value \|.*?\|\n((?:\|.*\|\n?)+)", result_text, re.S)`. -/
def tablePat : List RItem :=
  [.lit "| Biomarker | Value |".data, .star false dotAll, .lit "|\n".data,
   .grp 1 [.rep1 [.lit "|".data, .star true dotAll, .lit "|".data, .opt nlC]]]

/-- Pattern of
`re.search(r"Executive Summary\n(.*?)\nSystem-Specific Analysis", result_text, re.S)`. -/
def execPat : List RItem :=
  [.lit "Executive Summary\n".data, .grp 1 [.star false dotAll],
   .lit "\nSystem-Specific Analysis".data]

/-- Pattern of `re.findall(r"\d+\.\s+(.*)", exec_text)`. -/
def prioPat : List RItem :=
  [.plus true digitC, .lit ".".data, .plus true spaceC, .grp 1 [.star true dotNoNL]]

/-- Pattern of `re.findall(r"- (.*(?:Normal|within|good|optimal).*?)\n", exec_text)`. -/
def strengthPat : List RItem :=
  [.lit "- ".data,
   .grp 1 [.star true dotNoNL,
     .alt2 [.lit "Normal".data]
       [.alt2 [.lit "within".data] [.alt2 [.lit "good".data] [.lit "optimal".data]]],
     .star false dotNoNL],
   .lit "\n".data]

/-- The literal the system-analysis pattern starts with. -/
def statusMarker : List Char := "System-Specific Analysis\n- Status: ".data

/-- Pattern of
`re.search(r"System-Specific Analysis\n- Status: (.*?)\n- Explanation: (.*?)(?:\n|$)", result_text, re.S)`. -/
def sysPat : List RItem :=
  [.lit statusMarker, .grp 1 [.star false dotAll], .lit "\n- Explanation: ".data,
   .grp 2 [.star false dotAll], .alt2 [.lit "\n".data] [.dollar]]

/-- Pattern of
`re.search(r"Personalized Action Plan\n(.*?)\nInteraction Alerts", result_text, re.S)`. -/
def actionSectionPat : List RItem :=
  [.lit "Personalized Action Plan\n".data, .grp 1 [.star false dotAll],
   .lit "\nInteraction Alerts".data]

/-- Pattern of `re.findall(r"- (\w+): (.*?)(?:\n|$)", action_section.group(1))`. -/
def actionItemPat : List RItem :=
  [.lit "- ".data, .grp 1 [.plus true wordC], .lit ": ".data,
   .grp 2 [.star false dotNoNL], .alt2 [.lit "\n".data] [.dollar]]

/-- The literal the interaction-alerts pattern starts with. -/
def alertsMarker : List Char := "Interaction Alerts\n".data

/-- Pattern of `re.search(r"Interaction Alerts\n(.*)", result_text, re.S)`. -/
def alertsPat : List RItem :=
  [.lit alertsMarker, .grp 1 [.star true dotAll]]

/-! ## The data model (`data` dict of `parse_result_to_json`) -/

/-- One row of the biomarker table. -/
structure BiomarkerRow where
  biomarker : String
  value : String
  status : String
  insight : String
deriving DecidableEq

/-- The `executive_summary` sub-record. -/
structure ExecutiveSummary where
  top_priorities : List String
  key_strengths : List String
deriving DecidableEq

/-- The `system_analysis` sub-record. -/
structure SystemAnalysis where
  status : String
  explanation : String
deriving DecidableEq

/-- The fixed-shape output record.  Python's top-level `data` dict is
initialised with exactly these six keys and no key is ever added or
removed, so it is embedded as a record with six fields; the two dict-valued
fields whose key sets matter (`normal_ranges`, `action_plan`) are embedded
as insertion-ordered association lists, matching Python dict semantics. -/
structure BiomarkerReport where
  normal_ranges : List (String × String)
  biomarker_table : List BiomarkerRow
  executive_summary : ExecutiveSummary
  system_analysis : SystemAnalysis
  action_plan : List (String × String)
  interaction_alerts : List String
deriving DecidableEq

/-- Python dict assignment `m[k] = v`: overwrite in place when the key is
present (keeping its position), append otherwise. -/
def dictSet : List (String × String) → String → String → List (String × String)
  | [], k, v => [(k, v)]
  | (k0, v0) :: rest, k, v =>
    if k0 = k then (k0, v) :: rest else (k0, v0) :: dictSet rest k v

/-- Python `if k in m: m[k] = v`: overwrite in place only when present. -/
def dictSetIfMember : List (String × String) → String → String → List (String × String)
  | [], _, _ => []
  | (k0, v0) :: rest, k, v =>
    if k0 = k then (k0, v) :: rest else (k0, v0) :: dictSetIfMember rest k v

/-- Python dict lookup `m.get(k)`. -/
def lookupS : List (String × String) → String → Option String
  | [], _ => none
  | (k0, v) :: rest, k => if k0 = k then some v else lookupS rest k

/-! ## The extractor, section by section (lines 35-108 of `app.py`) -/

/-- Line 49: `result_text = re.sub(r"```.*?```", "", result_text, flags=re.S)`. -/
def stripFences (cs : List Char) : List Char :=
  subAll (cs.length + 1) fencePat cs

/-- The `(biomarker.strip(), value.strip())` pair of one normal-range match. -/
def capToPair (c : Caps) : String × String :=
  (String.mk (pyStrip (getCap c 1)), String.mk (pyStrip (getCap c 2)))

/-- The loop body of lines 53-54: `data["normal_ranges"][b.strip()] = v.strip()`. -/
def insertRange (m : List (String × String)) (p : String × String) :
    List (String × String) :=
  dictSet m p.1 p.2

/-- Lines 52-54: collect the normal-range matches into the dict. -/
def extractNormalRanges (t : List Char) : List (String × String) :=
  ((findallR t normalRangePat).map capToPair).foldl insertRange []

/-- Line 61: `parts = [p.strip() for p in row.strip("|").split("|")]`. -/
def rowCells (row : List Char) : List String :=
  (splitOnChar '|' (pyStripSet ['|'] row)).map (fun p => String.mk (pyStrip p))

/-- Lines 60-68: keep rows with exactly four cells whose first cell is not
`"---"`, mapping the cells to the row record. -/
def processRows : List (List Char) → List BiomarkerRow
  | [] => []
  | row :: rest =>
    match rowCells row with
    | [a, b, c, d] =>
      if a = "---" then processRows rest
      else ⟨a, b, c, d⟩ :: processRows rest
    | _ => processRows rest

/-- Lines 57-68: the biomarker table. -/
def extractTable (t : List Char) : List BiomarkerRow :=
  match searchCapsR t tablePat with
  | some caps => processRows (splitOnChar '\n' (pyStrip (getCap caps 1)))
  | none => []

/-- Lines 71-77: the executive summary. -/
def extractExec (t : List Char) : ExecutiveSummary :=
  match searchCapsR t execPat with
  | some caps =>
    let ex := getCap caps 1
    { top_priorities := (findallR ex prioPat).map (fun c => String.mk (getCap c 1)),
      key_strengths := (findallR ex strengthPat).map (fun c => String.mk (getCap c 1)) }
  | none => ⟨[], []⟩

/-- Lines 80-87: the system analysis, defaulting when the pattern misses. -/
def extractSys (t : List Char) : SystemAnalysis :=
  match searchCapsR t sysPat with
  | some caps =>
    ⟨String.mk (pyStrip (getCap caps 1)), String.mk (pyStrip (getCap caps 2))⟩
  | none => ⟨"Unknown", "No system analysis provided."⟩

/-- The initial `data["action_plan"]` dict of line 44. -/
def initPlan : List (String × String) :=
  [("nutrition", ""), ("lifestyle", ""), ("medical", ""), ("testing", "")]

/-- The `(category.lower(), content.strip())` pair of one action-plan match. -/
def capToPlanPair (c : Caps) : String × String :=
  (String.mk (asciiLower (getCap c 1)), String.mk (pyStrip (getCap c 2)))

/-- The loop body of lines 93-96: guarded dict update. -/
def insertPlan (m : List (String × String)) (p : String × String) :
    List (String × String) :=
  dictSetIfMember m p.1 p.2

/-- Lines 90-96: the action plan. -/
def extractPlan (t : List Char) : List (String × String) :=
  match searchCapsR t actionSectionPat with
  | some caps =>
    ((findallR (getCap caps 1) actionItemPat).map capToPlanPair).foldl insertPlan initPlan
  | none => initPlan

/-- The alert-line filter of line 104:
`line.strip() and not line.strip().startswith("```")`. -/
def alertKeep (line : List Char) : Bool :=
  !(pyStrip line).isEmpty && !("```".data.isPrefixOf (pyStrip line))

/-- The alert-line transform of line 102: `line.strip("- ").strip()`. -/
def alertClean (line : List Char) : String :=
  String.mk (pyStrip (pyStripSet ['-', ' '] line))

/-- Lines 99-106: the interaction alerts. -/
def extractAlerts (t : List Char) : List String :=
  match searchCapsR t alertsPat with
  | some caps =>
    ((splitOnChar '\n' (getCap caps 1)).filter alertKeep).map alertClean
  | none => []

/-- `parse_result_to_json` (lines 35-108 of `app.py`): strip fenced code
blocks, then populate each field of the report by its own pattern scan; the
field mutations of the Python loop body are independent per field, so the
record is assembled from the per-section extractors over the stripped text. -/
def parse_result_to_json (result_text : String) : BiomarkerReport :=
  let t := stripFences result_text.data
  { normal_ranges := extractNormalRanges t
    biomarker_table := extractTable t
    executive_summary := extractExec t
    system_analysis := extractSys t
    action_plan := extractPlan t
    interaction_alerts := extractAlerts t }

/-! ## General lemmas about the engine and the dictionary operations -/

/-- A pattern that begins with a literal cannot match where the literal is
not a prefix of the input. -/
theorem matchSeq_lit_false {α : Type} (f : Nat) (w : List Char) (items : List RItem)
    (cs : List Char) (caps : Caps) (k : List Char → Caps → Option α)
    (h : w.isPrefixOf cs = false) : matchSeq f (.lit w :: items) cs caps k = none := by
  cases f with
  | zero => rfl
  | succ f => simp [matchSeq, h]

/-- If a search for a pattern that begins with a literal succeeds, the
literal occurs as a substring of the searched text. -/
theorem searchCaps_lit_contains (w : List Char) (items : List RItem) :
    ∀ (f : Nat) (cs : List Char) (caps : Caps),
      searchCaps f (.lit w :: items) cs = some caps → containsSub w cs = true := by
  intro f
  induction f with
  | zero =>
    intro cs caps h
    exact absurd h (by simp [searchCaps])
  | succ f ih =>
    intro cs caps h
    cases hb : w.isPrefixOf cs with
    | true =>
      cases cs with
      | nil => simpa [containsSub] using hb
      | cons c t => simp [containsSub, hb]
    | false =>
      have hm : matchAt (.lit w :: items) cs = none := by
        unfold matchAt
        exact matchSeq_lit_false _ _ _ _ _ _ hb
      simp only [searchCaps, hm] at h
      cases cs with
      | nil => simp at h
      | cons c t =>
        have ht := ih t caps h
        simp [containsSub, ht]

/-- The guarded dict update of the action-plan loop never changes the key
list (it only overwrites the value of a key that is already present). -/
theorem dictSetIfMember_keys (k v : String) :
    ∀ m : List (String × String),
      (dictSetIfMember m k v).map Prod.fst = m.map Prod.fst := by
  intro m
  induction m with
  | nil => rfl
  | cons p rest ih =>
    cases p with
    | mk k0 v0 =>
      by_cases hk : k0 = k
      · simp [dictSetIfMember, hk]
      · simp [dictSetIfMember, hk, ih]

/-- Folding the action-plan loop body over any match list keeps the key
list of the plan dict unchanged. -/
theorem foldl_insertPlan_keys (ps : List (String × String)) :
    ∀ m : List (String × String),
      (ps.foldl insertPlan m).map Prod.fst = m.map Prod.fst := by
  induction ps with
  | nil => intro m; rfl
  | cons p rest ih =>
    intro m
    rw [List.foldl_cons]
    rw [ih]
    exact dictSetIfMember_keys p.1 p.2 m

/-- Python dict assignment: looking up the assigned key afterwards yields
the new value, any other key is unchanged. -/
theorem lookupS_dictSet (a b : String) :
    ∀ (m : List (String × String)) (k : String),
      lookupS (dictSet m a b) k = if a = k then some b else lookupS m k := by
  intro m
  induction m with
  | nil =>
    intro k
    by_cases h : a = k <;> simp [dictSet, lookupS, h]
  | cons p rest ih =>
    intro k
    cases p with
    | mk k0 v0 =>
      by_cases h0 : k0 = a
      · subst h0
        by_cases hk : k0 = k <;> simp [dictSet, lookupS, hk]
      · by_cases hk : k0 = k
        · subst hk
          have hak : ¬ a = k0 := fun hh => h0 hh.symm
          simp [dictSet, lookupS, h0, hak]
        · simp [dictSet, lookupS, h0, hk, ih]

/-- The value the normal-range fold leaves at a key is the last value
written to that key, and an untouched key keeps its initial binding. -/
def lastWins : List (String × String) → String → Option String
  | [], _ => none
  | (a, b) :: rest, k =>
    match lastWins rest k with
    | some v => some v
    | none => if a = k then some b else none

/-- Folding Python dict assignments over a pair list realises last-write-wins
for every key, falling back to the initial dict for unwritten keys. -/
theorem lookupS_foldl_insertRange (ps : List (String × String)) :
    ∀ (m : List (String × String)) (k : String),
      lookupS (ps.foldl insertRange m) k =
        match lastWins ps k with
        | some v => some v
        | none => lookupS m k := by
  induction ps with
  | nil => intro m k; rfl
  | cons p rest ih =>
    intro m k
    cases p with
    | mk a b =>
      rw [List.foldl_cons, ih]
      cases hl : lastWins rest k with
      | some v => simp [lastWins, hl]
      | none =>
        have hd : lookupS (insertRange m (a, b)) k =
            if a = k then some b else lookupS m k := lookupS_dictSet a b m k
        rw [hd]
        by_cases hak : a = k <;> simp [lastWins, hl, hak]

/-- Unfolding equation for the row loop of the biomarker table. -/
theorem processRows_cons (row : List Char) (rest : List (List Char)) :
    processRows (row :: rest) =
      match rowCells row with
      | [a, b, c, d] =>
        if a = "---" then processRows rest
        else ⟨a, b, c, d⟩ :: processRows rest
      | _ => processRows rest := rfl

/-! ## Concrete inputs used by the claims -/

/-- The end-to-end pipe-table scenario of the spec: header, separator row,
and two data rows. -/
def c4input : String :=
  "Biomarker Overview\n| Biomarker | Value | Status | Insight |\n| --- | --- | --- | --- |\n| Glucose | 160 | High | Elevated glucose |\n| CRP | 2.5 | Normal | Within range |\n"

/-- The end-to-end executive-summary scenario of the spec: three numbered
items and one bullet containing the token "Normal". -/
def c5input : String :=
  "Executive Summary\n1. Lower glucose\n2. Reduce CRP\n3. Improve RDW\n- Albumin Normal and stable\nKeep hydrated\nSystem-Specific Analysis\n"

/-- A present, well-formed system-analysis section whose status and
explanation carry surrounding whitespace to be trimmed. -/
def c6input : String :=
  "System-Specific Analysis\n- Status: Metabolic strain \n- Explanation:  Glucose and CRP are elevated. \n"

/-- An interaction-alert section with a dash-decorated line, a blank line,
a code-fence marker line, a double-dashed line and a plain line. -/
def c7input : String :=
  "Interaction Alerts\n- alert one -\n\n```\n-- second --\nplain\n"

/-- An alert line with a trailing dash: the claim's leading-marker reading
and the code's two-sided strip disagree here. -/
def c7cex : String := "Interaction Alerts\nalert one -\n"

/-- Two normal-range bullets with the same biomarker name. -/
def c8input : String :=
  "Normal Ranges\n- Glucose: 70-99 mg/dL\n- Glucose: 80-100 mg/dL\n"

/-- Three fence markers (odd): one paired block around a bullet, then an
unpaired fence followed by a still-visible bullet. -/
def c9input : String := "```\n- Hidden: 5\n``` mid ``` tail\n- Glucose: 70-99\n"

/-- A blank line between the heading and the status bullet. -/
def c10input : String :=
  "System-Specific Analysis\n\n- Status: OK\n- Explanation: E\n"

/-! ## The claims -/

/-- Claim C1: for every input string, `parse_result_to_json` returns a
`BiomarkerReport` record and never raises an exception (in this embedding
it is a total function into `BiomarkerReport` by construction), and every
section whose pattern does not match degrades to that field's declared
default value: empty mapping, empty table, empty summary lists, the
`Unknown` system analysis, the four-key empty action plan, and no alerts. -/
theorem parse_total_defaults :
    ∀ s : String,
      (findallR (stripFences s.data) normalRangePat = [] →
        (parse_result_to_json s).normal_ranges = []) ∧
      (searchCapsR (stripFences s.data) tablePat = none →
        (parse_result_to_json s).biomarker_table = []) ∧
      (searchCapsR (stripFences s.data) execPat = none →
        (parse_result_to_json s).executive_summary = ⟨[], []⟩) ∧
      (searchCapsR (stripFences s.data) sysPat = none →
        (parse_result_to_json s).system_analysis =
          ⟨"Unknown", "No system analysis provided."⟩) ∧
      (searchCapsR (stripFences s.data) actionSectionPat = none →
        (parse_result_to_json s).action_plan = initPlan) ∧
      (searchCapsR (stripFences s.data) alertsPat = none →
        (parse_result_to_json s).interaction_alerts = []) := by
  intro s
  refine ⟨?_, ?_, ?_, ?_, ?_, ?_⟩
  · intro h
    show extractNormalRanges (stripFences s.data) = []
    unfold extractNormalRanges
    rw [h]
    rfl
  · intro h
    show extractTable (stripFences s.data) = []
    unfold extractTable
    rw [h]
  · intro h
    show extractExec (stripFences s.data) = ⟨[], []⟩
    unfold extractExec
    rw [h]
  · intro h
    show extractSys (stripFences s.data) = ⟨"Unknown", "No system analysis provided."⟩
    unfold extractSys
    rw [h]
  · intro h
    show extractPlan (stripFences s.data) = initPlan
    unfold extractPlan
    rw [h]
  · intro h
    show extractAlerts (stripFences s.data) = []
    unfold extractAlerts
    rw [h]

/-- Claim C1 witness: on the input "x" none of the section patterns match,
and every field of the report is its declared default. -/
theorem parse_total_defaults_witness :
    (parse_result_to_json "x").normal_ranges = [] ∧
    (parse_result_to_json "x").biomarker_table = [] ∧
    (parse_result_to_json "x").executive_summary = ⟨[], []⟩ ∧
    (parse_result_to_json "x").system_analysis =
      ⟨"Unknown", "No system analysis provided."⟩ ∧
    (parse_result_to_json "x").action_plan = initPlan ∧
    (parse_result_to_json "x").interaction_alerts = [] :=
  ⟨(parse_total_defaults "x").1 (by rfl),
   (parse_total_defaults "x").2.1 (by rfl),
   (parse_total_defaults "x").2.2.1 (by rfl),
   (parse_total_defaults "x").2.2.2.1 (by rfl),
   (parse_total_defaults "x").2.2.2.2.1 (by rfl),
   (parse_total_defaults "x").2.2.2.2.2 (by rfl)⟩

/-- Claim C2: for every input, the returned record has all six top-level
fields (this is forced by the `BiomarkerReport` record type, into which
`parse_result_to_json` is total), and in particular the `action_plan` dict
always has exactly the four keys nutrition, lifestyle, medical, testing, in
their declared order, however malformed the input is. -/
theorem parse_shape_invariant (s : String) :
    (parse_result_to_json s).action_plan.map Prod.fst =
      ["nutrition", "lifestyle", "medical", "testing"] := by
  show (extractPlan (stripFences s.data)).map Prod.fst = _
  unfold extractPlan
  cases h : searchCapsR (stripFences s.data) actionSectionPat with
  | some caps => rw [foldl_insertPlan_keys]; rfl
  | none => rfl

/-- Claim C3: the empty input yields the all-default report: empty
normal-range mapping, empty table, empty priority and strength lists, the
default system analysis, the four-key empty action plan and no alerts. -/
theorem parse_empty_input :
    parse_result_to_json "" =
      { normal_ranges := [],
        biomarker_table := [],
        executive_summary := ⟨[], []⟩,
        system_analysis := ⟨"Unknown", "No system analysis provided."⟩,
        action_plan := [("nutrition", ""), ("lifestyle", ""),
                        ("medical", ""), ("testing", "")],
        interaction_alerts := [] } := by
  rfl

/-- Claim C4: in the biomarker-table section, each pipe-delimited row is
parsed into exactly four trimmed cells mapped to {biomarker, value, status,
insight}; a row whose first cell is the separator marker `---` is skipped;
any row that does not yield exactly four cells is excluded; and on the
spec's end-to-end scenario (header, separator row, two data rows) the table
has exactly the two expected entries. -/
theorem table_row_filtering :
    (∀ (row : List Char) (rest : List (List Char)),
        (rowCells row).length ≠ 4 →
        processRows (row :: rest) = processRows rest) ∧
    (∀ (row : List Char) (rest : List (List Char)) (a b c d : String),
        rowCells row = [a, b, c, d] → a ≠ "---" →
        processRows (row :: rest) = ⟨a, b, c, d⟩ :: processRows rest) ∧
    (∀ (row : List Char) (rest : List (List Char)) (a b c d : String),
        rowCells row = [a, b, c, d] → a = "---" →
        processRows (row :: rest) = processRows rest) ∧
    (parse_result_to_json c4input).biomarker_table =
      [⟨"Glucose", "160", "High", "Elevated glucose"⟩,
       ⟨"CRP", "2.5", "Normal", "Within range"⟩] := by
  refine ⟨?_, ?_, ?_, ?_⟩
  · intro row rest h
    rw [processRows_cons]
    generalize hL : rowCells row = L at h
    match L, h with
    | [], _ => rfl
    | [a], _ => rfl
    | [a, b], _ => rfl
    | [a, b, c], _ => rfl
    | [a, b, c, d], h => exact absurd rfl h
    | a :: b :: c :: d :: e :: l, _ => rfl
  · intro row rest a b c d hc hne
    simp only [processRows_cons, hc]
    rw [if_neg hne]
  · intro row rest a b c d hc heq
    simp only [processRows_cons, hc]
    rw [if_pos heq]
  · rfl

/-- Claim C4 witness: a two-cell row is excluded, a four-cell row is mapped
to its record, and a separator row is skipped, each at a concrete row. -/
theorem table_row_filtering_witness :
    processRows ["| a | b |".data] = processRows [] ∧
    processRows ["| G | 1 | High | ok |".data] =
      ⟨"G", "1", "High", "ok"⟩ :: processRows [] ∧
    processRows ["| --- | x | y | z |".data] = processRows [] :=
  ⟨table_row_filtering.1 "| a | b |".data [] (by decide),
   table_row_filtering.2.1 "| G | 1 | High | ok |".data [] "G" "1" "High" "ok"
     (by decide) (by decide),
   table_row_filtering.2.2.1 "| --- | x | y | z |".data [] "---" "x" "y" "z"
     (by decide) (by decide)⟩

/-- Claim C5: on the spec's executive-summary scenario (three numbered
items and one bullet line containing "Normal" between the "Executive
Summary" and "System-Specific Analysis" headings), the summary has the
three priorities and the single strength. -/
theorem exec_summary_scenario :
    (parse_result_to_json c5input).executive_summary =
      ⟨["Lower glucose", "Reduce CRP", "Improve RDW"],
       ["Albumin Normal and stable"]⟩ := by
  rfl

/-- Claim C6: whenever the system-analysis pattern finds no match in the
stripped text, `system_analysis` is the default record, and on a concrete
input with the status and explanation lines present the trimmed texts are
carried over. -/
theorem sys_absent_default_present_trimmed :
    (∀ s : String,
      searchCapsR (stripFences s.data) sysPat = none →
      (parse_result_to_json s).system_analysis =
        ⟨"Unknown", "No system analysis provided."⟩) ∧
    (parse_result_to_json c6input).system_analysis =
      ⟨"Metabolic strain", "Glucose and CRP are elevated."⟩ := by
  constructor
  · intro s h
    show extractSys (stripFences s.data) = _
    unfold extractSys
    rw [h]
  · rfl

/-- Claim C6 witness: on the input "y" the system-analysis pattern finds no
match and the default record is returned. -/
theorem sys_absent_default_present_trimmed_witness :
    (parse_result_to_json "y").system_analysis =
      ⟨"Unknown", "No system analysis provided."⟩ :=
  sys_absent_default_present_trimmed.1 "y" (by rfl)

/-- Modelled from the claim's words, for comparison with the code: strip
one leading "- " marker from a line and nothing else. -/
def stripLeadingDashMarker (line : List Char) : List Char :=
  if ['-', ' '].isPrefixOf line then line.drop 2 else line

/-- The interaction-alert extraction as the claim words it: every
non-empty, non-code-fence line after the heading, with only a leading "- "
marker stripped from each line. -/
def alertsPerClaim (s : String) : List String :=
  match searchCapsR (stripFences s.data) alertsPat with
  | some caps =>
    ((splitOnChar '\n' (getCap caps 1)).filter alertKeep).map
      (fun line => String.mk (stripLeadingDashMarker line))
  | none => []

/-- Claim C7 counterexample: on the alert line "alert one -" the code's
`line.strip("- ").strip()` also removes the trailing " -", so the produced
alert is "alert one", not the "alert one -" that stripping only a leading
"- " marker would give. -/
theorem alerts_leading_strip_counterexample :
    alertsPerClaim c7cex = ["alert one -"] ∧
    (parse_result_to_json c7cex).interaction_alerts = ["alert one"] ∧
    (parse_result_to_json c7cex).interaction_alerts ≠ alertsPerClaim c7cex := by
  refine ⟨by rfl, by rfl, by decide⟩

/-- Claim C7 as amended: `interaction_alerts` consists of every non-empty,
non-code-fence line after the heading "Interaction Alerts", in order, with
all leading and trailing '-' and space characters stripped from each line
and the result trimmed of whitespace; blank lines and code-fence marker
lines are excluded; and the list is empty when the heading does not occur
in the stripped text. -/
theorem alerts_strip_semantics :
    (∀ s : String,
      containsSub alertsMarker (stripFences s.data) = false →
      (parse_result_to_json s).interaction_alerts = []) ∧
    (parse_result_to_json c7input).interaction_alerts =
      ["alert one", "second", "plain"] := by
  constructor
  · intro s h
    show extractAlerts (stripFences s.data) = []
    unfold extractAlerts
    cases hs : searchCapsR (stripFences s.data) alertsPat with
    | none => rfl
    | some caps =>
      exfalso
      have hs2 : searchCaps ((stripFences s.data).length + 1)
          (.lit alertsMarker :: [.grp 1 [.star true dotAll]])
          (stripFences s.data) = some caps := hs
      have hc := searchCaps_lit_contains alertsMarker
        [.grp 1 [.star true dotAll]] _ _ _ hs2
      rw [h] at hc
      exact Bool.noConfusion hc
  · rfl

/-- Claim C7 amended witness: an input without the alerts heading yields no
alerts. -/
theorem alerts_strip_semantics_witness :
    (parse_result_to_json "no heading here").interaction_alerts = [] :=
  alerts_strip_semantics.1 "no heading here" (by rfl)

/-- Claim C8: the normal-range fold realises last-write-wins for every key
(the value found for a key is the last value written for it), and on an
input with two bullets for the same biomarker the later value is the one
recorded. -/
theorem normal_ranges_last_write_wins :
    (∀ (ps : List (String × String)) (k : String),
      lookupS (ps.foldl insertRange []) k = lastWins ps k) ∧
    (parse_result_to_json c8input).normal_ranges =
      [("Glucose", "80-100 mg/dL")] := by
  constructor
  · intro ps k
    rw [lookupS_foldl_insertRange]
    cases lastWins ps k with
    | some v => rfl
    | none => rfl
  · rfl

/-- Claim C9: with an odd number of fence markers, the non-greedy `re.sub`
removes only the paired spans: the bullet inside the paired block is gone,
the final unpaired marker and the text after it survive in the scanned
text, and that surviving text is seen by the later extraction steps (here
the normal-range scan picks up the bullet placed after the odd fence). -/
theorem unpaired_fence_survives :
    stripFences c9input.data = " mid ``` tail\n- Glucose: 70-99\n".data ∧
    (parse_result_to_json c9input).normal_ranges = [("Glucose", "70-99")] := by
  exact ⟨rfl, rfl⟩

/-- Claim C10: the system-analysis pattern can only match where the literal
"System-Specific Analysis\n- Status: " occurs, i.e. when the status bullet
starts the very next line after the heading; on any input whose stripped
text lacks that adjacency `system_analysis` is the default, in particular
when a blank line separates the heading from the status bullet. -/
theorem sys_requires_adjacent_status :
    (∀ s : String,
      containsSub statusMarker (stripFences s.data) = false →
      (parse_result_to_json s).system_analysis =
        ⟨"Unknown", "No system analysis provided."⟩) ∧
    (parse_result_to_json c10input).system_analysis =
      ⟨"Unknown", "No system analysis provided."⟩ := by
  constructor
  · intro s h
    show extractSys (stripFences s.data) = _
    unfold extractSys
    cases hs : searchCapsR (stripFences s.data) sysPat with
    | none => rfl
    | some caps =>
      exfalso
      have hs2 : searchCaps ((stripFences s.data).length + 1)
          (.lit statusMarker ::
            [.grp 1 [.star false dotAll], .lit "\n- Explanation: ".data,
             .grp 2 [.star false dotAll], .alt2 [.lit "\n".data] [.dollar]])
          (stripFences s.data) = some caps := hs
      have hc := searchCaps_lit_contains statusMarker
        [.grp 1 [.star false dotAll], .lit "\n- Explanation: ".data,
         .grp 2 [.star false dotAll], .alt2 [.lit "\n".data] [.dollar]] _ _ _ hs2
      rw [h] at hc
      exact Bool.noConfusion hc
  · rfl

/-- Claim C10 witness: on the input "abc" the literal marker does not occur
and the system analysis is the default. -/
theorem sys_requires_adjacent_status_witness :
    (parse_result_to_json "abc").system_analysis =
      ⟨"Unknown", "No system analysis provided."⟩ :=
  sys_requires_adjacent_status.1 "abc" (by rfl)
